import Mathlib

/-!
# Package `exit` of cert-manager-webhook-ali: a small-step embedding

Source: `pkg/util/exit/exit.go`.

The package keeps five process-wide variables (`background`/`cancel`, `StopWg`,
`exitResultCh`, `shut`, and the signal channel `c` created in `init`).  They
are the fields of `State`.  Every goroutine that runs code of the package is a
program counter into one of three pieces of code:

* `Watcher`  : the goroutine started by `init` (lines 43-49);
* `Caller`   : a call of `Exit`, `Panic` or `Error` (lines 93-117);
* `Waiter`   : a call of `WaitForExit` (lines 64-89).

One step of a goroutine executes one statement of the source atomically and is
`none` when that statement blocks (a send on a full channel, a receive on an
empty one, `StopWg.Wait()` with work in flight, `shut.Do` while another caller
is inside it) or when the goroutine has finished.  `run` iterates the steps of
one goroutine until it blocks or finishes; `Config`/`exec` interleave the
goroutines under an arbitrary schedule.
-/

set_option autoImplicit false

namespace ExitCoordinator

/-! ## Values -/

/-- The two signals of `quitSignals` (line 27). -/
inductive Signal where
  | SIGINT
  | SIGTERM
  deriving DecidableEq

/-- Line 27: `quitSignals = []os.Signal{syscall.SIGINT, syscall.SIGTERM}`. -/
def quitSignals : List Signal := [Signal.SIGINT, Signal.SIGTERM]

/-- A Go `error` value as this package sees it: `nil`, the package-level
sentinel `errExit` (line 32), or any other value made by `errors.New`. -/
inductive GoError where
  | nil
  | errExit
  | new (text : String)
  deriving DecidableEq

/-- The text that `fmt.Sprintf("%v", err)` produces: `err.Error()`, or `<nil>`
for the nil interface.  Line 32 gives the text of `errExit`. -/
def GoError.fmtV : GoError → String
  | GoError.nil => "<nil>"
  | GoError.errExit => "the application is exit"
  | GoError.new text => text

/-- The dynamic types of the values sent on `exitResultCh` (`chan interface{}`):
an `int` (line 114), an `errorStr` (lines 35, 97-98) or an `os.Signal`
(line 45). -/
inductive Result where
  | int (code : Int)
  | errorStr (text : String)
  | signal (s : Signal)
  deriving DecidableEq

/-- State of a `sync.Once`: not yet used, a caller is inside `Do` running the
function (the mutex of the `Once` is held), or done. -/
inductive Once where
  | fresh
  | running
  | done
  deriving DecidableEq

/-! ## Shared state -/

/-- The package-level variables (lines 21-33, 41) together with the two
observable effects of the process: what was written with `print` and the exit
status with which `os.Exit` ended it. -/
structure State where
  /-- Whether `cancel()` was called, i.e. `background.Done()` is closed (line 23). -/
  cancelled : Bool
  /-- The counter of `StopWg` (line 25). -/
  StopWg : Int
  /-- The buffer of `exitResultCh`, a channel of capacity 1 (line 29). -/
  exitResultCh : List Result
  /-- The once-gate `shut` (line 31). -/
  shut : Once
  /-- The buffer of the signal channel `c`, of capacity 2 (line 41). -/
  c : List Signal
  /-- What the builtin `print` wrote to the error stream, oldest first. -/
  stderr : List String
  /-- Exit status of the process once `os.Exit` has terminated it. -/
  exited : Option Int
  deriving DecidableEq

/-- The state after package initialisation. -/
def State.init : State :=
  { cancelled := false, StopWg := 0, exitResultCh := [], shut := Once.fresh,
    c := [], stderr := [], exited := none }

/-- Calling `cancel()`: idempotent, closes `background.Done()`. -/
def cancel (s : State) : State := { s with cancelled := true }

/-- The exit status of a process ended by `os.Exit(code)`: the low eight bits
of `code`, a number from 0 to 255. -/
def exitStatus (code : Int) : Int := code % 256

/-- Calling `os.Exit(code)`: the process ends with status `exitStatus code`. -/
def osExit (code : Int) (s : State) : State := { s with exited := some (exitStatus code) }

/-- Whether a send on `exitResultCh` (capacity 1) can proceed. -/
def canSend (s : State) : Bool := decide (s.exitResultCh.length < 1)

/-- Completing the send `exitResultCh <- v`. -/
def send (v : Result) (s : State) : State :=
  { s with exitResultCh := s.exitResultCh ++ [v] }

/-- `signal.Notify(c, quitSignals...)` relays a signal with a non-blocking
send: a signal that is not in `quitSignals`, or that arrives while the buffer
of `c` (capacity 2) is full, is not queued. -/
def notify (sig : Signal) (s : State) : State :=
  if sig ∈ quitSignals ∧ s.c.length < 2 then { s with c := s.c ++ [sig] } else s

/-- `StopWg.Add(delta)` (`Done()` is `Add(-1)`): `none` stands for the runtime
panic of a negative counter. -/
def wgAdd (delta : Int) (s : State) : Option State :=
  if s.StopWg + delta < 0 then none else some { s with StopWg := s.StopWg + delta }

/-! ## The goroutine started by `init` (lines 43-49) -/

/-- Program counter of the watcher goroutine. -/
inductive Watcher where
  /-- Line 44: `s := <-c`. -/
  | recvFirst
  /-- Line 45: `exitResultCh <- s`. -/
  | sendResult (s : Signal)
  /-- Line 46: `cancel()`. -/
  | callCancel
  /-- Line 47: `<-c`. -/
  | recvSecond
  /-- Line 48: `os.Exit(130)`. -/
  | callExit
  /-- After `os.Exit`. -/
  | gone
  deriving DecidableEq

/-- Line 40-50: `init` starts the watcher at its first statement. -/
def init : Watcher := Watcher.recvFirst

/-- One statement of the watcher goroutine. -/
def Watcher.step (p : Watcher) (s : State) : Option (Watcher × State) :=
  if s.exited.isSome then none else
  match p with
  | Watcher.recvFirst =>
    match s.c with
    | [] => none
    | sig :: rest => some (Watcher.sendResult sig, { s with c := rest })
  | Watcher.sendResult sig =>
    if canSend s then some (Watcher.callCancel, send (Result.signal sig) s) else none
  | Watcher.callCancel => some (Watcher.recvSecond, cancel s)
  | Watcher.recvSecond =>
    match s.c with
    | [] => none
    | _ :: rest => some (Watcher.callExit, { s with c := rest })
  | Watcher.callExit => some (Watcher.gone, osExit 130 s)
  | Watcher.gone => none

/-! ## `Exit`, `Panic`, `Error` (lines 93-117) -/

/-- Program counter of a call of `Exit` or `Panic`.  `v` is the value the
function literal passed to `shut.Do` sends, `ret` the value of the `return`
statement after `shut.Do`. -/
inductive Caller where
  /-- At `shut.Do(...)` (lines 95, 112). -/
  | shutDo (v : Result) (ret : GoError)
  /-- Inside the function literal, at `exitResultCh <- v` (lines 98, 114). -/
  | sendResult (v : Result) (ret : GoError)
  /-- The deferred `cancel()` (lines 96, 113). -/
  | deferCancel (ret : GoError)
  /-- The function literal has returned: `shut` becomes done and is unlocked. -/
  | onceDone (ret : GoError)
  /-- The call has returned `ret` to its caller (lines 100, 116). -/
  | returned (ret : GoError)
  deriving DecidableEq

/-- Lines 111-117: `Exit(code)` sends `code` (an `int`) and returns `errExit`. -/
def Exit (code : Int) : Caller := Caller.shutDo (Result.int code) GoError.errExit

/-- Lines 93-101: `Panic(err)`, where `stack` is what `debug.Stack()` returned
at line 94.  The value sent is `errorStr(fmt.Sprintf("%v\n%s", err, stack))`
and the call returns `err`. -/
def Panic (err : GoError) (stack : String) : Caller :=
  Caller.shutDo (Result.errorStr (err.fmtV ++ "\n" ++ stack)) err

/-- Lines 105-107: `Error(text)` is `Panic(errors.New(text))`. -/
def Error (text : String) (stack : String) : Caller :=
  Panic (GoError.new text) stack

/-- One statement of a call of `Exit`/`Panic`. -/
def Caller.step (p : Caller) (s : State) : Option (Caller × State) :=
  if s.exited.isSome then none else
  match p with
  | Caller.shutDo v ret =>
    match s.shut with
    | Once.done => some (Caller.returned ret, s)
    | Once.running => none
    | Once.fresh => some (Caller.sendResult v ret, { s with shut := Once.running })
  | Caller.sendResult v ret =>
    if canSend s then some (Caller.deferCancel ret, send v s) else none
  | Caller.deferCancel ret => some (Caller.onceDone ret, cancel s)
  | Caller.onceDone ret => some (Caller.returned ret, { s with shut := Once.done })
  | Caller.returned _ => none

/-! ## `WaitForExit` (lines 64-89) -/

/-- Program counter of a call of `WaitForExit`. -/
inductive Waiter where
  /-- Line 67: `shut.Do(func() { cancel() })`. -/
  | shutDo
  /-- Line 68: `cancel()` inside the function literal. -/
  | callCancel
  /-- The function literal has returned: `shut` becomes done and is unlocked. -/
  | onceDone
  /-- Line 71: `<-background.Done()`. -/
  | ctxDone
  /-- Line 72: `StopWg.Wait()`. -/
  | wgWait
  /-- Lines 73-88: the `select` with its type switch. -/
  | select
  /-- Line 79: `print(r)`. -/
  | printResult (r : String)
  /-- Lines 77, 80, 82: `os.Exit(code)`. -/
  | callExit (code : Int)
  /-- `WaitForExit` has returned to its caller (line 89). -/
  | returned
  /-- After `os.Exit`. -/
  | gone
  deriving DecidableEq

/-- Lines 64-89: a call of `WaitForExit` starts at `shut.Do`. -/
def WaitForExit : Waiter := Waiter.shutDo

/-- One statement of a call of `WaitForExit`. -/
def Waiter.step (p : Waiter) (s : State) : Option (Waiter × State) :=
  if s.exited.isSome then none else
  match p with
  | Waiter.shutDo =>
    match s.shut with
    | Once.done => some (Waiter.ctxDone, s)
    | Once.running => none
    | Once.fresh => some (Waiter.callCancel, { s with shut := Once.running })
  | Waiter.callCancel => some (Waiter.onceDone, cancel s)
  | Waiter.onceDone => some (Waiter.ctxDone, { s with shut := Once.done })
  | Waiter.ctxDone => if s.cancelled then some (Waiter.wgWait, s) else none
  | Waiter.wgWait => if s.StopWg = 0 then some (Waiter.select, s) else none
  | Waiter.select =>
    match s.exitResultCh with
    | [] => some (Waiter.returned, s)
    | Result.int r :: rest => some (Waiter.callExit r, { s with exitResultCh := rest })
    | Result.errorStr r :: rest =>
      some (Waiter.printResult r, { s with exitResultCh := rest })
    | Result.signal _ :: rest => some (Waiter.callExit 130, { s with exitResultCh := rest })
  | Waiter.printResult r => some (Waiter.callExit 2, { s with stderr := s.stderr ++ [r] })
  | Waiter.callExit code => some (Waiter.gone, osExit code s)
  | Waiter.returned => none
  | Waiter.gone => none

/-! ## Running one goroutine -/

/-- Runs one goroutine, with nothing else interleaved, until its next
statement blocks, it has finished, or `fuel` statements were executed. -/
def run {α : Type} (step : α → State → Option (α × State)) : Nat → α → State → α × State
  | 0, p, s => (p, s)
  | fuel + 1, p, s =>
    match step p s with
    | none => (p, s)
    | some (p', s') => run step fuel p' s'

/-- No piece of code of the package is longer than nine statements. -/
def fuel : Nat := 12

/-- Runs a call of `Exit`/`Panic`/`Error` until it returns or blocks. -/
def runCaller (p : Caller) (s : State) : Caller × State := run Caller.step fuel p s

/-- Runs a call of `WaitForExit` (from `p`) until it returns, exits or blocks. -/
def runWaiter (p : Waiter) (s : State) : Waiter × State := run Waiter.step fuel p s

/-- Runs the watcher goroutine until it blocks or exits. -/
def runWatcher (p : Watcher) (s : State) : Watcher × State := run Watcher.step fuel p s

/-! ## Interleaving the goroutines -/

/-- The entry points other goroutines can call. -/
inductive Call where
  | Exit (code : Int)
  | Panic (err : GoError) (stack : String)
  | Error (text : String) (stack : String)
  deriving DecidableEq

/-- The first statement of a call. -/
def Call.entry : Call → Caller
  | Call.Exit code => ExitCoordinator.Exit code
  | Call.Panic err stack => ExitCoordinator.Panic err stack
  | Call.Error text stack => ExitCoordinator.Error text stack

/-- The whole process: the shared state, the watcher goroutine, the calls of
`Exit`/`Panic`/`Error` made so far (each in its own goroutine or not, in the
order they were started) and the call of `WaitForExit`, if it was made. -/
structure Config where
  st : State
  watcher : Watcher
  calls : List Caller
  main : Option Waiter
  deriving DecidableEq

/-- The process right after package initialisation: `init` has started the
watcher, nothing else has run. -/
def Config.init : Config :=
  { st := State.init, watcher := ExitCoordinator.init, calls := [], main := none }

/-- What a scheduler or the environment can do next. -/
inductive Action where
  /-- Some goroutine calls `Exit`, `Panic` or `Error`. -/
  | call (k : Call)
  /-- The main goroutine calls `WaitForExit`. -/
  | callWaitForExit
  /-- The operating system delivers a signal. -/
  | deliver (sig : Signal)
  /-- Some goroutine calls `StopWg.Add(delta)` (`StopWg.Done()` is `delta = -1`). -/
  | wgAdd (delta : Int)
  /-- The watcher executes its next statement, if it can. -/
  | stepWatcher
  /-- The `i`-th call of `Exit`/`Panic`/`Error` executes its next statement, if it can. -/
  | stepCall (i : Nat)
  /-- The call of `WaitForExit` executes its next statement, if it can. -/
  | stepMain
  deriving DecidableEq

/-- One action.  A goroutine whose next statement blocks, or that has
finished, stays where it is; nothing happens once the process has exited.
`StopWg.Add` updates the counter before it checks it, so an `Add` that panics
leaves the counter negative; the panic unwinds the calling goroutine, which is
code outside the package. -/
def exec (a : Action) (c : Config) : Config :=
  if c.st.exited.isSome then c else
  match a with
  | Action.call k => { c with calls := c.calls ++ [k.entry] }
  | Action.callWaitForExit =>
    match c.main with
    | none => { c with main := some WaitForExit }
    | some _ => c
  | Action.deliver sig => { c with st := notify sig c.st }
  | Action.wgAdd delta =>
    match wgAdd delta c.st with
    | none => { c with st := { c.st with StopWg := c.st.StopWg + delta } }
    | some s => { c with st := s }
  | Action.stepWatcher =>
    match c.watcher.step c.st with
    | none => c
    | some (p, s) => { c with st := s, watcher := p }
  | Action.stepCall i =>
    match c.calls.get? i with
    | none => c
    | some p =>
      match p.step c.st with
      | none => c
      | some (p', s) => { c with st := s, calls := c.calls.set i p' }
  | Action.stepMain =>
    match c.main with
    | none => c
    | some p =>
      match p.step c.st with
      | none => c
      | some (p', s) => { c with st := s, main := some p' }

/-- A schedule, executed from left to right. -/
def execAll (acts : List Action) (c : Config) : Config := acts.foldl (fun c a => exec a c) c

/-- A trigger request, as the environment issues it. -/
inductive Request where
  | call (k : Call)
  | signal (sig : Signal)
  deriving DecidableEq

/-- The value a request tries to put into `exitResultCh`. -/
def Request.outcome : Request → Result
  | Request.call (Call.Exit code) => Result.int code
  | Request.call (Call.Panic err stack) => Result.errorStr (err.fmtV ++ "\n" ++ stack)
  | Request.call (Call.Error text stack) => Result.errorStr (text ++ "\n" ++ stack)
  | Request.signal sig => Result.signal sig

/-- Issuing one request and letting the goroutine that handles it run until it
finishes or blocks: a call is started as the newest entry of `calls` and gets
`fuel` steps; a signal is delivered and the watcher gets `fuel` steps. -/
def Request.schedule (n : Nat) : Request → List Action
  | Request.call k => Action.call k :: List.replicate fuel (Action.stepCall n)
  | Request.signal sig => Action.deliver sig :: List.replicate fuel Action.stepWatcher

/-- Issues the request in `c`. -/
def issue (r : Request) (c : Config) : Config := execAll (r.schedule c.calls.length) c

/-- Issues the requests one after the other. -/
def issueAll (rs : List Request) (c : Config) : Config := rs.foldl (fun c r => issue r c) c

/-- Whether the action belongs to the trigger side of the package, i.e. is
not the call of `WaitForExit` nor one of its steps. -/
def Action.isTrigger : Action → Bool
  | Action.callWaitForExit => false
  | Action.stepMain => false
  | _ => true

/-! ## Vocabulary of the statements -/

/-- The table of the specification (section 6), read as the argument of
`os.Exit`: an explicit code gives that code, a reported failure gives 2, an
external signal gives 130. -/
def specStatus : Result → Int
  | Result.int c => c
  | Result.errorStr _ => 2
  | Result.signal _ => 130

/-- The statements of `WaitForExit` up to and including `StopWg.Wait()`
(lines 67-72). -/
def Waiter.beforeDrain : Waiter → Bool
  | Waiter.shutDo => true
  | Waiter.callCancel => true
  | Waiter.onceDone => true
  | Waiter.ctxDone => true
  | Waiter.wgWait => true
  | _ => false

/-- What holds of a call of `WaitForExit` at `p` in state `s` once it is past
line 71 (the signal is tripped), past line 72 (nothing is in flight), and once
the process has exited (the call is the one that exited). -/
def Waiter.Resolved (p : Waiter) (s : State) : Prop :=
  (p ≠ Waiter.shutDo → p ≠ Waiter.callCancel → p ≠ Waiter.onceDone → p ≠ Waiter.ctxDone →
    s.cancelled = true) ∧
  (p.beforeDrain = false → s.StopWg = 0) ∧
  (s.exited ≠ none → p = Waiter.gone)

/-- Number of statements a call of `WaitForExit` at `p` can still execute. -/
def Waiter.rank : Waiter → Nat
  | Waiter.shutDo => 9
  | Waiter.callCancel => 8
  | Waiter.onceDone => 7
  | Waiter.ctxDone => 6
  | Waiter.wgWait => 5
  | Waiter.select => 4
  | Waiter.printResult _ => 3
  | Waiter.callExit _ => 2
  | Waiter.returned => 0
  | Waiter.gone => 0

/-- Number of statements a call of `Exit`/`Panic` at `p` can still execute. -/
def Caller.rank : Caller → Nat
  | Caller.shutDo _ _ => 4
  | Caller.sendResult _ _ => 3
  | Caller.deferCancel _ => 2
  | Caller.onceDone _ => 1
  | Caller.returned _ => 0

/-- Number of statements the watcher at `p` can still execute. -/
def Watcher.rank : Watcher → Nat
  | Watcher.recvFirst => 5
  | Watcher.sendResult _ => 4
  | Watcher.callCancel => 3
  | Watcher.recvSecond => 2
  | Watcher.callExit => 1
  | Watcher.gone => 0

/-- Two units of work registered and released after initialisation. -/
def twoRegisteredTwoReleased : Option State :=
  (((wgAdd 1 State.init).bind (wgAdd 1)).bind (wgAdd (-1))).bind (wgAdd (-1))

/-- A state in which `Exit(3)` was recorded and nothing is in flight. -/
def recordedExit3 : State :=
  { cancelled := true, StopWg := 0, exitResultCh := [Result.int 3], shut := Once.done,
    c := [], stderr := [], exited := none }

/-- Record-before-trip, as a property of a whole process: while the outcome
slot is empty the signal is not tripped and no trigger goroutine stands at its
`cancel()`. -/
def Config.RecordedBeforeTrip (c : Config) : Prop :=
  c.st.exitResultCh = [] →
    c.st.cancelled = false ∧ c.watcher ≠ Watcher.callCancel ∧
      ∀ p ∈ c.calls, ∀ ret, p ≠ Caller.deferCancel ret

/-- The schedule of the witness of C6: `Exit(5)` is called and executes its
first three statements, up to and including the deferred `cancel()`. -/
def exitUpToCancel : List Action :=
  [Action.call (Call.Exit 5), Action.stepCall 0, Action.stepCall 0, Action.stepCall 0]

/-- The schedule for C4: `Exit(1)` is called and returns, one unit of work is
in flight, `WaitForExit` is called and runs until it blocks, two signals are
delivered, and then the watcher and `WaitForExit` get `fuel` steps each. -/
def escalationAfterExit : List Action :=
  (Request.call (Call.Exit 1)).schedule 0 ++
  [Action.wgAdd 1, Action.callWaitForExit] ++ List.replicate fuel Action.stepMain ++
  [Action.deliver Signal.SIGINT, Action.deliver Signal.SIGINT] ++
  List.replicate fuel Action.stepWatcher ++ List.replicate fuel Action.stepMain

/-- The same schedule without the call of `Exit`. -/
def escalationAlone : List Action :=
  [Action.wgAdd 1, Action.callWaitForExit] ++ List.replicate fuel Action.stepMain ++
  [Action.deliver Signal.SIGINT, Action.deliver Signal.SIGINT] ++
  List.replicate fuel Action.stepWatcher ++ List.replicate fuel Action.stepMain

/-! ## General facts about `run` -/

theorem run_zero {α : Type} (step : α → State → Option (α × State)) (p : α) (s : State) :
    run step 0 p s = (p, s) := rfl

theorem run_succ {α : Type} (step : α → State → Option (α × State)) (n : Nat) (p : α)
    (s : State) :
    run step (n + 1) p s =
      match step p s with
      | none => (p, s)
      | some (p', s') => run step n p' s' := rfl

/-- A property of (program counter, state) pairs kept by every step is kept by `run`. -/
theorem run_preserves {α : Type} (step : α → State → Option (α × State))
    (P : α → State → Prop)
    (hstep : ∀ p s p' s', step p s = some (p', s') → P p s → P p' s') :
    ∀ (n : Nat) (p : α) (s : State), P p s → P (run step n p s).1 (run step n p s).2 := by
  intro n
  induction n with
  | zero => intro p s h; exact h
  | succ n ih =>
    intro p s h
    rw [run_succ]
    cases hs : step p s with
    | none => exact h
    | some q => exact ih q.1 q.2 (hstep p s q.1 q.2 hs h)

/-- When every step lowers a rank, `run` with more fuel than the rank stops
only where the goroutine cannot step: it has blocked or finished. -/
theorem run_stuck {α : Type} (step : α → State → Option (α × State)) (rank : α → Nat)
    (hrank : ∀ p s p' s', step p s = some (p', s') → rank p' < rank p) :
    ∀ (n : Nat) (p : α) (s : State), rank p < n →
      step (run step n p s).1 (run step n p s).2 = none := by
  intro n
  induction n with
  | zero => intro p s h; exact absurd h (Nat.not_lt_zero _)
  | succ n ih =>
    intro p s h
    rw [run_succ]
    cases hs : step p s with
    | none => exact hs
    | some q =>
      have hlt := hrank p s q.1 q.2 hs
      exact ih q.1 q.2 (by omega)

theorem waiter_step_rank (p : Waiter) (s : State) (p' : Waiter) (s' : State)
    (h : p.step s = some (p', s')) : p'.rank < p.rank := by
  unfold Waiter.step at h
  split at h
  · exact absurd h (by simp)
  · cases p <;> simp only at h <;> try split at h
    all_goals (cases h <;> simp [Waiter.rank])

theorem caller_step_rank (p : Caller) (s : State) (p' : Caller) (s' : State)
    (h : p.step s = some (p', s')) : p'.rank < p.rank := by
  unfold Caller.step at h
  split at h
  · exact absurd h (by simp)
  · cases p <;> simp only at h <;> try split at h
    all_goals (cases h <;> simp [Caller.rank])

theorem watcher_step_rank (p : Watcher) (s : State) (p' : Watcher) (s' : State)
    (h : p.step s = some (p', s')) : p'.rank < p.rank := by
  unfold Watcher.step at h
  split at h
  · exact absurd h (by simp)
  · cases p <;> simp only at h <;> try split at h
    all_goals (cases h <;> simp [Watcher.rank])

/-- The fuel of `runWaiter` is enough: where `runWaiter` stops, the call of
`WaitForExit` has returned, exited, or is blocked. -/
theorem runWaiter_stuck (p : Waiter) (s : State) :
    (runWaiter p s).1.step (runWaiter p s).2 = none :=
  run_stuck Waiter.step Waiter.rank waiter_step_rank fuel p s
    (by cases p <;> simp [Waiter.rank, fuel])

/-- The fuel of `runCaller` is enough. -/
theorem runCaller_stuck (p : Caller) (s : State) :
    (runCaller p s).1.step (runCaller p s).2 = none :=
  run_stuck Caller.step Caller.rank caller_step_rank fuel p s
    (by cases p <;> simp [Caller.rank, fuel])

/-- The fuel of `runWatcher` is enough. -/
theorem runWatcher_stuck (p : Watcher) (s : State) :
    (runWatcher p s).1.step (runWatcher p s).2 = none :=
  run_stuck Watcher.step Watcher.rank watcher_step_rank fuel p s
    (by cases p <;> simp [Watcher.rank, fuel])

/-! ## Facts about `WaitForExit` -/

/-- Every statement of `WaitForExit` keeps `Waiter.Resolved` and leaves the
`StopWg` counter alone. -/
theorem waiter_step_resolved (w : Int) (p : Waiter) (s : State) (p' : Waiter) (s' : State)
    (h : p.step s = some (p', s')) (hr : p.Resolved s ∧ s.StopWg = w) :
    p'.Resolved s' ∧ s'.StopWg = w := by
  obtain ⟨⟨h1, h2, h3⟩, h4⟩ := hr
  unfold Waiter.step at h
  split at h
  · cases h
  · rename_i hlive
    have hnone : s.exited = none := by
      cases he : s.exited with
      | none => rfl
      | some v => rw [he] at hlive; exact absurd rfl hlive
    cases p <;> simp only at h <;> try split at h
    all_goals
      cases h <;>
      simp_all [Waiter.Resolved, Waiter.beforeDrain, cancel, osExit]

/-- C1, amended.  Status table of `WaitForExit`: in a live process whose
outcome slot holds `r`, whose cancellation signal is tripped and whose `StopWg`
counter is zero, the call terminates the process with `os.Exit` applied to the
entry of the table (`c` for an explicit code `c`, 2 for a reported failure,
130 for an external signal), so the exit status is the low eight bits of that
entry: exactly `c` when `0 ≤ c < 256`, exactly 2 for a failure, exactly 130
for a signal.  This holds for a call that starts at line 67 while no other
caller is inside `shut.Do`, and for a call that stands at line 71, 72 or 73 in
any state of `shut`. -/
theorem waitForExit_status_table (s : State) (r : Result) (hlive : s.exited = none)
    (hres : s.exitResultCh = [r]) (htrip : s.cancelled = true) (hwg : s.StopWg = 0) :
    (s.shut ≠ Once.running →
      (runWaiter WaitForExit s).1 = Waiter.gone ∧
      (runWaiter WaitForExit s).2.exited = some (exitStatus (specStatus r))) ∧
    (∀ p, p = Waiter.ctxDone ∨ p = Waiter.wgWait ∨ p = Waiter.select →
      (runWaiter p s).1 = Waiter.gone ∧
      (runWaiter p s).2.exited = some (exitStatus (specStatus r))) ∧
    (∀ c : Int, r = Result.int c → 0 ≤ c → c < 256 → exitStatus (specStatus r) = c) ∧
    (∀ text : String, r = Result.errorStr text → exitStatus (specStatus r) = 2) ∧
    (∀ sig : Signal, r = Result.signal sig → exitStatus (specStatus r) = 130) := by
  obtain ⟨cancelled, wg, ch, shut, c, err, exited⟩ := s
  simp only at hres htrip hwg hlive
  subst hres htrip hwg hlive
  refine ⟨?_, ?_, ?_, ?_, ?_⟩
  · intro h
    cases shut <;> cases r <;> first | exact ⟨rfl, rfl⟩ | exact absurd rfl h
  · rintro p (rfl | rfl | rfl) <;> cases r <;> exact ⟨rfl, rfl⟩
  · rintro c rfl h0 h1
    exact Int.emod_eq_of_lt h0 h1
  · rintro text rfl
    rfl
  · rintro sig rfl
    rfl

/-- Witness of C1, amended: `Exit(7)` was recorded, the signal is tripped,
nothing is in flight; `WaitForExit` exits with status 7. -/
theorem waitForExit_status_table_witness :
    (runWaiter WaitForExit
      { cancelled := true, StopWg := 0, exitResultCh := [Result.int 7], shut := Once.done,
        c := [], stderr := [], exited := none }).2.exited = some 7 :=
  ((waitForExit_status_table
      { cancelled := true, StopWg := 0, exitResultCh := [Result.int 7], shut := Once.done,
        c := [], stderr := [], exited := none }
      (Result.int 7) rfl rfl rfl rfl).1 (by decide)).2

/-- C1 fails as stated: after `Exit(256)` the call of `WaitForExit` ends the
process with status 0, not 256, and after `Exit(-1)` with status 255, not -1. -/
theorem exit_status_is_truncated :
    (runWaiter WaitForExit (runCaller (Exit 256) State.init).2).1 = Waiter.gone ∧
    (runWaiter WaitForExit (runCaller (Exit 256) State.init).2).2.exited = some 0 ∧
    ¬ ((runWaiter WaitForExit (runCaller (Exit 256) State.init).2).2.exited = some 256) ∧
    (runWaiter WaitForExit (runCaller (Exit (-1)) State.init).2).2.exited = some 255 ∧
    ¬ ((runWaiter WaitForExit (runCaller (Exit (-1)) State.init).2).2.exited =
        some (-1)) := by
  decide

/-- C5.  No-trigger finalize: when nothing was ever recorded (empty outcome
slot, `shut` unused), the process is live and the `StopWg` counter is zero,
`WaitForExit` runs to its `return`: it trips the cancellation signal, marks
`shut` done, changes nothing else and does not call `os.Exit`. -/
theorem waitForExit_no_trigger (s : State) (hres : s.exitResultCh = [])
    (hshut : s.shut = Once.fresh) (hwg : s.StopWg = 0) (hlive : s.exited = none) :
    runWaiter WaitForExit s =
      (Waiter.returned, { s with cancelled := true, shut := Once.done }) ∧
    (runWaiter WaitForExit s).2.cancelled = true ∧
    (runWaiter WaitForExit s).2.exited = none := by
  obtain ⟨cancelled, wg, ch, shut, c, err, exited⟩ := s
  simp only at hres hshut hwg hlive
  subst hres hshut hwg hlive
  exact ⟨rfl, rfl, rfl⟩

/-- Witness of C5: register two units of work, release both, call `WaitForExit`. -/
theorem waitForExit_no_trigger_witness :
    twoRegisteredTwoReleased = some State.init ∧
    runWaiter WaitForExit State.init =
      (Waiter.returned, { State.init with cancelled := true, shut := Once.done }) :=
  ⟨by decide, (waitForExit_no_trigger State.init rfl rfl rfl rfl).1⟩

/-- C7.  Drain before exit.  A call of `WaitForExit` standing at one of lines
67-72 of a live process (with the signal tripped if it already stands at
`StopWg.Wait()`), after any number `n` of its statements: if it has returned or
the process has exited, then the signal is tripped and the `StopWg` counter is
zero; and when the counter is zero, the place where the call stops is not
`StopWg.Wait()`. -/
theorem waitForExit_drain_before_exit (n : Nat) (p : Waiter) (s : State)
    (hp : p.beforeDrain = true) (hwait : p = Waiter.wgWait → s.cancelled = true)
    (hlive : s.exited = none) :
    (((run Waiter.step n p s).1 = Waiter.returned ∨ (run Waiter.step n p s).2.exited ≠ none) →
      (run Waiter.step n p s).2.cancelled = true ∧ (run Waiter.step n p s).2.StopWg = 0 ∧
        s.StopWg = 0) ∧
    (s.StopWg = 0 → (runWaiter p s).1 ≠ Waiter.wgWait) := by
  have h0 : p.Resolved s ∧ s.StopWg = s.StopWg := by
    refine ⟨⟨?_, ?_, ?_⟩, rfl⟩
    · intro h1 h2 h3 h4
      cases p <;> simp_all [Waiter.beforeDrain]
    · intro h; rw [hp] at h; cases h
    · intro h; exact absurd hlive h
  have key : ∀ m, (run Waiter.step m p s).1.Resolved (run Waiter.step m p s).2 ∧
      (run Waiter.step m p s).2.StopWg = s.StopWg := fun m =>
    run_preserves Waiter.step (fun q t => q.Resolved t ∧ t.StopWg = s.StopWg)
      (waiter_step_resolved s.StopWg) m p s h0
  refine ⟨?_, ?_⟩
  · intro hend
    obtain ⟨⟨k1, k2, k3⟩, k4⟩ := key n
    have hpc : (run Waiter.step n p s).1 = Waiter.returned ∨
        (run Waiter.step n p s).1 = Waiter.gone := by
      rcases hend with h | h
      · exact Or.inl h
      · exact Or.inr (k3 h)
    have hc : (run Waiter.step n p s).2.cancelled = true := by
      rcases hpc with h | h <;> exact k1 (by rw [h]; simp) (by rw [h]; simp)
        (by rw [h]; simp) (by rw [h]; simp)
    have hz : (run Waiter.step n p s).2.StopWg = 0 := by
      rcases hpc with h | h <;> exact k2 (by rw [h]; rfl)
    exact ⟨hc, hz, by rw [← k4]; exact hz⟩
  · intro hz hpc
    obtain ⟨⟨_, _, k3⟩, k4⟩ := key fuel
    have hstuck := runWaiter_stuck p s
    unfold runWaiter at hpc hstuck
    have hl : (run Waiter.step fuel p s).2.exited = none := by
      by_contra hne
      have := k3 hne
      rw [hpc] at this
      cases this
    rw [hpc] at hstuck
    simp [Waiter.step, hl, k4, hz] at hstuck

/-- Witness of C7: with `Exit(3)` recorded and nothing in flight, `WaitForExit`
exits with status 3 in a state where the signal is tripped and the counter is
zero, and does not stop at `StopWg.Wait()`. -/
theorem waitForExit_drain_before_exit_witness :
    (run Waiter.step 9 WaitForExit recordedExit3).2.exited = some 3 ∧
    (run Waiter.step 9 WaitForExit recordedExit3).2.cancelled = true ∧
    (run Waiter.step 9 WaitForExit recordedExit3).2.StopWg = 0 ∧
    (runWaiter WaitForExit recordedExit3).1 ≠ Waiter.wgWait :=
  ⟨by decide,
    ((waitForExit_drain_before_exit 9 WaitForExit recordedExit3 rfl (by decide) rfl).1
      (Or.inr (by decide))).1,
    ((waitForExit_drain_before_exit 9 WaitForExit recordedExit3 rfl (by decide) rfl).1
      (Or.inr (by decide))).2.1,
    (waitForExit_drain_before_exit 9 WaitForExit recordedExit3 rfl (by decide) rfl).2 rfl⟩

/-! ## Facts about `Exit`, `Panic` and `Error` -/

/-- C8, amended.  What `Panic`, `Error` and `Exit` return (lines 100, 106, 116).  In a live
process in which `shut` is done, or unused with an empty outcome slot, each of
the three calls returns to its caller: `Panic(err)` returns `err` itself,
`Error(text)` returns the error made from `text`, whose text is `text`, and
only `Exit(code)` returns the sentinel `errExit`. -/
theorem panic_returns_its_argument (s : State) (err : GoError) (text stack : String)
    (code : Int) (hlive : s.exited = none)
    (hshut : s.shut = Once.done ∨ (s.shut = Once.fresh ∧ s.exitResultCh = [])) :
    (runCaller (Panic err stack) s).1 = Caller.returned err ∧
    (runCaller (Error text stack) s).1 = Caller.returned (GoError.new text) ∧
    (GoError.new text).fmtV = text ∧
    (runCaller (Exit code) s).1 = Caller.returned GoError.errExit := by
  obtain ⟨cancelled, wg, ch, shut, c, e, exited⟩ := s
  simp only at hlive hshut
  subst hlive
  rcases hshut with h | ⟨h, h'⟩
  · subst h
    exact ⟨rfl, rfl, rfl, rfl⟩
  · subst h h'
    exact ⟨rfl, rfl, rfl, rfl⟩

/-- Witness of C8, amended: `Panic`, `Error` and `Exit` right after initialisation. -/
theorem panic_returns_its_argument_witness :
    (runCaller (Panic (GoError.new "boom") "trace") State.init).1 =
      Caller.returned (GoError.new "boom") ∧
    (runCaller (Error "boom" "trace") State.init).1 = Caller.returned (GoError.new "boom") ∧
    (runCaller (Exit 1) State.init).1 = Caller.returned GoError.errExit :=
  ⟨(panic_returns_its_argument State.init (GoError.new "boom") "boom" "trace" 1 rfl
      (Or.inr ⟨rfl, rfl⟩)).1,
    (panic_returns_its_argument State.init (GoError.new "boom") "boom" "trace" 1 rfl
      (Or.inr ⟨rfl, rfl⟩)).2.1,
    (panic_returns_its_argument State.init (GoError.new "boom") "boom" "trace" 1 rfl
      (Or.inr ⟨rfl, rfl⟩)).2.2.2⟩

/-- C8 fails as stated: right after initialisation `Panic(errors.New("boom"))`
and `Error("boom")` do not return `errExit`; they return an error whose text
is the reported message `boom`. -/
theorem panic_does_not_return_errExit :
    ¬ ((runCaller (Panic (GoError.new "boom") "trace") State.init).1 =
          Caller.returned GoError.errExit) ∧
    ¬ ((runCaller (Error "boom" "trace") State.init).1 = Caller.returned GoError.errExit) ∧
    (runCaller (Panic (GoError.new "boom") "trace") State.init).1 =
      Caller.returned (GoError.new "boom") ∧
    (GoError.new "boom").fmtV = "boom" := by
  decide

/-- C9.  Failure diagnostic.  Let `Panic(err)` (resp. `Error(m)`) be the first
trigger of a live process (empty outcome slot, `shut` unused) with nothing in
flight, `stack` the trace captured at line 94, and let `WaitForExit` run next.
Then the call of `Panic` returns, `WaitForExit` ends the process with status 2,
the error stream has grown by exactly one entry, the text of `err` (resp. `m`),
a newline and `stack`, and there is a point of the run of `WaitForExit`, just
before `os.Exit(2)`, where that entry is already written and the process is
still live. -/
theorem failure_diagnostic (s : State) (err : GoError) (m stack : String)
    (hres : s.exitResultCh = []) (hshut : s.shut = Once.fresh) (hwg : s.StopWg = 0)
    (hlive : s.exited = none) :
    ((runCaller (Panic err stack) s).1 = Caller.returned err ∧
      (runWaiter WaitForExit (runCaller (Panic err stack) s).2).1 = Waiter.gone ∧
      (runWaiter WaitForExit (runCaller (Panic err stack) s).2).2.exited = some 2 ∧
      (runWaiter WaitForExit (runCaller (Panic err stack) s).2).2.stderr =
        s.stderr ++ [err.fmtV ++ "\n" ++ stack] ∧
      ∃ k, (run Waiter.step k WaitForExit (runCaller (Panic err stack) s).2).1 =
          Waiter.callExit 2 ∧
        (run Waiter.step k WaitForExit (runCaller (Panic err stack) s).2).2.stderr =
          s.stderr ++ [err.fmtV ++ "\n" ++ stack] ∧
        (run Waiter.step k WaitForExit (runCaller (Panic err stack) s).2).2.exited = none) ∧
    ((runCaller (Error m stack) s).1 = Caller.returned (GoError.new m) ∧
      (runWaiter WaitForExit (runCaller (Error m stack) s).2).1 = Waiter.gone ∧
      (runWaiter WaitForExit (runCaller (Error m stack) s).2).2.exited = some 2 ∧
      (runWaiter WaitForExit (runCaller (Error m stack) s).2).2.stderr =
        s.stderr ++ [m ++ "\n" ++ stack] ∧
      ∃ k, (run Waiter.step k WaitForExit (runCaller (Error m stack) s).2).1 =
          Waiter.callExit 2 ∧
        (run Waiter.step k WaitForExit (runCaller (Error m stack) s).2).2.stderr =
          s.stderr ++ [m ++ "\n" ++ stack] ∧
        (run Waiter.step k WaitForExit (runCaller (Error m stack) s).2).2.exited = none) := by
  obtain ⟨cancelled, wg, ch, shut, c, e, exited⟩ := s
  simp only at hres hshut hwg hlive
  subst hres hshut hwg hlive
  exact ⟨⟨rfl, rfl, rfl, rfl, 5, rfl, rfl, rfl⟩, ⟨rfl, rfl, rfl, rfl, 5, rfl, rfl, rfl⟩⟩

/-- Witness of C9: `Error("boom")` right after initialisation, then `WaitForExit`. -/
theorem failure_diagnostic_witness :
    (runWaiter WaitForExit (runCaller (Error "boom" "trace") State.init).2).2.exited = some 2 ∧
    (runWaiter WaitForExit (runCaller (Error "boom" "trace") State.init).2).2.stderr =
      ["boom\ntrace"] :=
  ⟨(failure_diagnostic State.init GoError.nil "boom" "trace" rfl rfl rfl rfl).2.2.2.1,
    (failure_diagnostic State.init GoError.nil "boom" "trace" rfl rfl rfl rfl).2.2.2.2.1⟩

/-- C10.  A trigger that arrives after finalize has begun is lost.  Let
`WaitForExit` be called in a live process with nothing recorded (empty outcome
slot, `shut` unused) and work in flight.  It stops at `StopWg.Wait()`.  A call
`k` of `Exit`, `Panic` or `Error` made then returns, changes nothing and leaves
the outcome slot empty.  Once the work in flight is released, the call of
`WaitForExit` resumes and returns; the process is not terminated. -/
theorem late_trigger_is_lost (s : State) (k : Call) (hres : s.exitResultCh = [])
    (hshut : s.shut = Once.fresh) (hwg : 0 < s.StopWg) (hlive : s.exited = none) :
    (runWaiter WaitForExit s).1 = Waiter.wgWait ∧
    (∃ ret, (runCaller k.entry (runWaiter WaitForExit s).2).1 = Caller.returned ret) ∧
    (runCaller k.entry (runWaiter WaitForExit s).2).2 = (runWaiter WaitForExit s).2 ∧
    (runCaller k.entry (runWaiter WaitForExit s).2).2.exitResultCh = [] ∧
    ∃ s3, wgAdd (-s.StopWg) (runCaller k.entry (runWaiter WaitForExit s).2).2 = some s3 ∧
      s3.StopWg = 0 ∧
      runWaiter (runWaiter WaitForExit s).1 s3 = (Waiter.returned, s3) ∧
      s3.exitResultCh = [] ∧ s3.exited = none := by
  obtain ⟨cancelled, wg, ch, shut, c, e, exited⟩ := s
  simp only at hres hshut hwg hlive
  subst hres hshut hlive
  have hne : wg ≠ 0 := ne_of_gt hwg
  have hw : runWaiter WaitForExit
      { cancelled := cancelled, StopWg := wg, exitResultCh := [], shut := Once.fresh, c := c,
        stderr := e, exited := none } =
      (Waiter.wgWait,
        { cancelled := true, StopWg := wg, exitResultCh := [], shut := Once.done, c := c,
          stderr := e, exited := none }) := by
    simp [runWaiter, fuel, run, WaitForExit, Waiter.step, cancel, hne]
  rw [hw]
  have hc : runCaller k.entry
      { cancelled := true, StopWg := wg, exitResultCh := [], shut := Once.done, c := c,
        stderr := e, exited := none } =
      (Caller.returned
          (match k with
            | Call.Exit _ => GoError.errExit
            | Call.Panic err _ => err
            | Call.Error text _ => GoError.new text),
        { cancelled := true, StopWg := wg, exitResultCh := [], shut := Once.done, c := c,
          stderr := e, exited := none }) := by
    cases k <;> rfl
  rw [hc]
  refine ⟨rfl, ⟨_, rfl⟩, rfl, rfl, ?_⟩
  refine ⟨{ cancelled := true, StopWg := 0, exitResultCh := [], shut := Once.done, c := c,
            stderr := e, exited := none }, ?_, rfl, rfl, rfl, rfl⟩
  simp [wgAdd]

/-- Witness of C10: `WaitForExit` with one unit of work in flight, then
`Exit(3)` by the worker, then `Done()`. -/
theorem late_trigger_is_lost_witness :
    (runWaiter WaitForExit { State.init with StopWg := 1 }).1 = Waiter.wgWait ∧
    (runCaller (Call.Exit 3).entry
      (runWaiter WaitForExit { State.init with StopWg := 1 }).2).2.exitResultCh = [] :=
  ⟨(late_trigger_is_lost { State.init with StopWg := 1 } (Call.Exit 3) rfl rfl
      (by decide) rfl).1,
    (late_trigger_is_lost { State.init with StopWg := 1 } (Call.Exit 3) rfl rfl
      (by decide) rfl).2.2.2.1⟩

/-! ## The outcome slot under arbitrary schedules -/

/-- A statement of the watcher never changes a full outcome slot. -/
theorem watcher_step_slot (p : Watcher) (s : State) (p' : Watcher) (s' : State) (v : Result)
    (h : p.step s = some (p', s')) (hv : s.exitResultCh = [v]) : s'.exitResultCh = [v] := by
  unfold Watcher.step at h
  split at h
  · cases h
  · cases p <;> simp only at h <;> try split at h
    all_goals (cases h <;> simp_all [canSend, send, cancel, osExit])

/-- A statement of `Exit`/`Panic` never changes a full outcome slot. -/
theorem caller_step_slot (p : Caller) (s : State) (p' : Caller) (s' : State) (v : Result)
    (h : p.step s = some (p', s')) (hv : s.exitResultCh = [v]) : s'.exitResultCh = [v] := by
  unfold Caller.step at h
  split at h
  · cases h
  · cases p <;> simp only at h <;> try split at h
    all_goals (cases h <;> simp_all [canSend, send, cancel, osExit])

/-- No trigger action changes a full outcome slot. -/
theorem exec_slot_stable (a : Action) (c : Config) (v : Result) (ha : a.isTrigger = true)
    (hv : c.st.exitResultCh = [v]) : (exec a c).st.exitResultCh = [v] := by
  unfold exec
  split
  · exact hv
  · cases a with
    | call k => exact hv
    | callWaitForExit => cases ha
    | stepMain => cases ha
    | deliver sig =>
      simp only [notify]
      split <;> exact hv
    | wgAdd delta =>
      simp only [wgAdd]
      by_cases hd : c.st.StopWg + delta < 0
      · simp [hd, hv]
      · simp [hd, hv]
    | stepWatcher =>
      simp only
      cases hs : c.watcher.step c.st with
      | none => exact hv
      | some q => exact watcher_step_slot _ _ q.1 q.2 v hs hv
    | stepCall i =>
      simp only
      cases hp : c.calls.get? i with
      | none => exact hv
      | some p =>
        simp only
        cases hs : p.step c.st with
        | none => exact hv
        | some q => exact caller_step_slot _ _ q.1 q.2 v hs hv

/-- No schedule of trigger actions changes a full outcome slot. -/
theorem execAll_slot_stable (acts : List Action) (hacts : ∀ a ∈ acts, a.isTrigger = true) :
    ∀ (c : Config) (v : Result), c.st.exitResultCh = [v] →
      (execAll acts c).st.exitResultCh = [v] := by
  induction acts with
  | nil => intro c v hv; exact hv
  | cons a rest ih =>
    intro c v hv
    exact ih (fun b hb => hacts b (List.mem_cons_of_mem a hb)) (exec a c) v
      (exec_slot_stable a c v (hacts a (List.mem_cons_self a rest)) hv)

/-- The schedule of a request consists of trigger actions. -/
theorem Request.schedule_isTrigger (r : Request) (n : Nat) :
    ∀ a ∈ r.schedule n, a.isTrigger = true := by
  intro a ha
  cases r with
  | call k =>
    simp only [Request.schedule, List.mem_cons, List.mem_replicate] at ha
    rcases ha with rfl | ⟨_, rfl⟩ <;> rfl
  | signal sig =>
    simp only [Request.schedule, List.mem_cons, List.mem_replicate] at ha
    rcases ha with rfl | ⟨_, rfl⟩ <;> rfl

/-- No sequence of requests changes a full outcome slot. -/
theorem issueAll_slot_stable (rs : List Request) :
    ∀ (c : Config) (v : Result), c.st.exitResultCh = [v] →
      (issueAll rs c).st.exitResultCh = [v] := by
  induction rs with
  | nil => intro c v hv; exact hv
  | cons r rest ih =>
    intro c v hv
    exact ih (issue r c) v
      (execAll_slot_stable _ (Request.schedule_isTrigger r c.calls.length) c v hv)

/-- The first request after initialisation fills the outcome slot with its outcome. -/
theorem issue_first (r : Request) :
    (issue r Config.init).st.exitResultCh = [r.outcome] := by
  cases r with
  | call k =>
    cases k <;>
      simp [issue, Request.schedule, fuel, List.replicate, execAll, exec, Config.init,
        State.init, Call.entry, Exit, Panic, Error, Caller.step, canSend, send, cancel,
        Request.outcome, GoError.fmtV]
  | signal sig =>
    cases sig <;>
      simp [issue, Request.schedule, fuel, List.replicate, execAll, exec, Config.init,
        State.init, init, notify, quitSignals, Watcher.step, canSend, send, cancel,
        Request.outcome]

/-- C2.  Exactly-once commit, first writer wins.  Issue a non-empty sequence
`r :: rest` of trigger requests (`Exit`, `Panic`, `Error`, external signals) one
after the other after initialisation, each handled until its goroutine
finishes or blocks: the outcome slot then holds exactly the outcome of the
first request `r`.  The same holds after `r` under every further schedule
`acts` of trigger actions, in whatever way the goroutines are interleaved. -/
theorem first_writer_wins (r : Request) (rest : List Request) (acts : List Action)
    (hacts : ∀ a ∈ acts, a.isTrigger = true) :
    (issueAll (r :: rest) Config.init).st.exitResultCh = [r.outcome] ∧
    (execAll acts (issue r Config.init)).st.exitResultCh = [r.outcome] :=
  ⟨issueAll_slot_stable rest (issue r Config.init) r.outcome (issue_first r),
    execAll_slot_stable acts hacts (issue r Config.init) r.outcome (issue_first r)⟩

/-- Witness of C2: `Exit(7)`, then a signal, then `Error("boom")`. -/
theorem first_writer_wins_witness :
    (issueAll [Request.call (Call.Exit 7), Request.signal Signal.SIGTERM,
      Request.call (Call.Error "boom" "trace")] Config.init).st.exitResultCh = [Result.int 7] :=
  (first_writer_wins (Request.call (Call.Exit 7))
    [Request.signal Signal.SIGTERM, Request.call (Call.Error "boom" "trace")]
    [Action.deliver Signal.SIGINT, Action.stepWatcher] (by decide)).1

/-! ## Record before trip -/

/-- What a statement of the watcher does while the outcome slot stays empty. -/
theorem watcher_step_empty (p : Watcher) (s : State) (p' : Watcher) (s' : State)
    (h : p.step s = some (p', s')) (he : s'.exitResultCh = []) :
    s.exitResultCh = [] ∧ p' ≠ Watcher.callCancel ∧
      (p ≠ Watcher.callCancel → s'.cancelled = s.cancelled) := by
  unfold Watcher.step at h
  split at h
  · cases h
  · cases p <;> simp only at h <;> try split at h
    all_goals (cases h <;> simp_all [canSend, send, cancel, osExit])

/-- What a statement of `Exit`/`Panic` does while the outcome slot stays empty. -/
theorem caller_step_empty (p : Caller) (s : State) (p' : Caller) (s' : State)
    (h : p.step s = some (p', s')) (he : s'.exitResultCh = []) :
    s.exitResultCh = [] ∧ (∀ ret, p' ≠ Caller.deferCancel ret) ∧
      ((∀ ret, p ≠ Caller.deferCancel ret) → s'.cancelled = s.cancelled) := by
  unfold Caller.step at h
  split at h
  · cases h
  · cases p <;> simp only at h <;> try split at h
    all_goals (cases h <;> simp_all [canSend, send, cancel, osExit])

/-- Every trigger action keeps `Config.RecordedBeforeTrip`. -/
theorem exec_recordedBeforeTrip (a : Action) (c : Config) (ha : a.isTrigger = true)
    (hc : c.RecordedBeforeTrip) : (exec a c).RecordedBeforeTrip := by
  unfold exec
  split
  · exact hc
  · cases a with
    | callWaitForExit => cases ha
    | stepMain => cases ha
    | call k =>
      intro he
      obtain ⟨h1, h2, h3⟩ := hc he
      refine ⟨h1, h2, ?_⟩
      intro p hp ret
      rcases List.mem_append.mp hp with hp | hp
      · exact h3 p hp ret
      · rw [List.mem_singleton] at hp
        subst hp
        cases k <;> simp [Call.entry, Exit, Panic, Error]
    | deliver sig =>
      intro he
      have he' : c.st.exitResultCh = [] := by
        simp only [notify] at he
        split at he <;> exact he
      obtain ⟨h1, h2, h3⟩ := hc he'
      refine ⟨?_, h2, h3⟩
      simp only [notify]
      split <;> exact h1
    | wgAdd delta =>
      intro he
      simp only [wgAdd] at he ⊢
      by_cases hd : c.st.StopWg + delta < 0
      · simp only [hd, if_true] at he ⊢
        exact hc he
      · simp only [hd, if_false] at he ⊢
        exact hc he
    | stepWatcher =>
      simp only
      cases hs : c.watcher.step c.st with
      | none => exact hc
      | some q =>
        intro he
        obtain ⟨k1, k2, k3⟩ := watcher_step_empty _ _ q.1 q.2 hs he
        obtain ⟨h1, h2, h3⟩ := hc k1
        exact ⟨(k3 h2).trans h1, k2, h3⟩
    | stepCall i =>
      simp only
      cases hp : c.calls.get? i with
      | none => exact hc
      | some p =>
        simp only
        cases hs : p.step c.st with
        | none => exact hc
        | some q =>
          intro he
          obtain ⟨k1, k2, k3⟩ := caller_step_empty _ _ q.1 q.2 hs he
          obtain ⟨h1, h2, h3⟩ := hc k1
          have hmem : p ∈ c.calls := List.get?_mem hp
          refine ⟨(k3 (h3 p hmem)).trans h1, h2, ?_⟩
          intro p1 hp1 ret
          rcases List.mem_or_eq_of_mem_set hp1 with hp1 | hp1
          · exact h3 p1 hp1 ret
          · rw [hp1]; exact k2 ret

/-- Every schedule of trigger actions keeps `Config.RecordedBeforeTrip`. -/
theorem execAll_recordedBeforeTrip (acts : List Action)
    (hacts : ∀ a ∈ acts, a.isTrigger = true) :
    ∀ c : Config, c.RecordedBeforeTrip → (execAll acts c).RecordedBeforeTrip := by
  induction acts with
  | nil => intro c hc; exact hc
  | cons a rest ih =>
    intro c hc
    exact ih (fun b hb => hacts b (List.mem_cons_of_mem a hb)) (exec a c)
      (exec_recordedBeforeTrip a c (hacts a (List.mem_cons_self a rest)) hc)

/-- C6.  Record-before-trip ordering.  In every state reached from
initialisation by a schedule of trigger actions (calls of `Exit`, `Panic`,
`Error`, deliveries of signals, `StopWg` updates, and single statements of the
watcher and of the calls, interleaved in any way; no `WaitForExit`), if the
cancellation signal is tripped then the outcome slot holds an outcome. -/
theorem recorded_before_trip (acts : List Action)
    (hacts : ∀ a ∈ acts, a.isTrigger = true)
    (htrip : (execAll acts Config.init).st.cancelled = true) :
    (execAll acts Config.init).st.exitResultCh ≠ [] := by
  intro he
  have hinit : Config.init.RecordedBeforeTrip := by
    intro _
    refine ⟨rfl, by decide, ?_⟩
    intro p hp
    cases hp
  have h := (execAll_recordedBeforeTrip acts hacts Config.init hinit he).1
  rw [htrip] at h
  cases h

/-- Witness of C6: right after the deferred `cancel()` of `Exit(5)` the signal
is tripped and the slot holds 5; one statement earlier the slot holds 5 and the
signal is not yet tripped. -/
theorem recorded_before_trip_witness :
    (execAll exitUpToCancel Config.init).st.cancelled = true ∧
    (execAll exitUpToCancel Config.init).st.exitResultCh ≠ [] ∧
    (execAll exitUpToCancel.dropLast Config.init).st.cancelled = false ∧
    (execAll exitUpToCancel.dropLast Config.init).st.exitResultCh = [Result.int 5] :=
  ⟨by decide, recorded_before_trip exitUpToCancel (by decide) (by decide), by decide,
    by decide⟩

/-! ## Mixing an external signal with `Exit`/`Panic`

The watcher sends on `exitResultCh` without going through `shut` (line 45),
while `Exit` and `Panic` send inside `shut.Do` (lines 95-99, 112-115).  The
channel has capacity 1, so whichever of the two kinds comes second blocks on
its send. -/

/-- Evaluation for C3.  A signal followed by `Exit(1)`: the call of `Exit` is
inside `shut.Do` at its send and cannot step, so it has not returned; a call
of `WaitForExit` made then cannot get past `shut.Do` either.  `Exit(1)`
followed by a signal: the watcher is at its send and cannot step, the
cancellation it would perform at line 46 and the wait for the second signal at
line 47 are not reached.  Two calls of `Exit` do not block. -/
theorem second_request_blocks :
    (issueAll [Request.signal Signal.SIGINT, Request.call (Call.Exit 1)] Config.init).calls =
      [Caller.sendResult (Result.int 1) GoError.errExit] ∧
    Caller.step (Caller.sendResult (Result.int 1) GoError.errExit)
      (issueAll [Request.signal Signal.SIGINT, Request.call (Call.Exit 1)] Config.init).st =
        none ∧
    (runWaiter WaitForExit
      (issueAll [Request.signal Signal.SIGINT, Request.call (Call.Exit 1)] Config.init).st).1 =
        Waiter.shutDo ∧
    (issueAll [Request.call (Call.Exit 1), Request.signal Signal.SIGINT] Config.init).watcher =
      Watcher.sendResult Signal.SIGINT ∧
    Watcher.step (Watcher.sendResult Signal.SIGINT)
      (issueAll [Request.call (Call.Exit 1), Request.signal Signal.SIGINT] Config.init).st =
        none ∧
    (issueAll [Request.call (Call.Exit 1), Request.call (Call.Exit 2)] Config.init).calls =
      [Caller.returned GoError.errExit, Caller.returned GoError.errExit] := by
  decide

set_option maxRecDepth 8192 in
/-- Evaluation for C4.  With `Exit(1)` recorded and one unit of work in
flight, two delivered signals do not terminate the process: the watcher is
blocked at its send (line 45), the second signal sits in the buffer of `c`,
`WaitForExit` waits on the drain.  Without the call of `Exit` the same two
signals terminate the process with status 130. -/
theorem escalation_blocked_after_exit :
    (execAll escalationAfterExit Config.init).st.exited = none ∧
    (execAll escalationAfterExit Config.init).watcher = Watcher.sendResult Signal.SIGINT ∧
    (execAll escalationAfterExit Config.init).st.c = [Signal.SIGINT] ∧
    (execAll escalationAfterExit Config.init).main = some Waiter.wgWait ∧
    (execAll escalationAlone Config.init).st.exited = some 130 := by
  decide

end ExitCoordinator
